import Mathlib

/-!
Verification of the proxy authentication credential-resolution service
(`src/vs/platform/native/electron-main/auth.ts`, class `ProxyAuthService`).

The mutable service state (`pendingProxyResolves`, `cancelledAuthInfoHashes`,
`sessionCredentials`, and the application storage behind
`applicationStorageMainService`) is embedded as an explicit state record
threaded through pure functions.  The external collaborators (encryption
service, window service, and the dialog reply delivered over the
`vscode:proxyAuthResponse` channel) are an oracle record.  Observable
interactions with the store, the decrypt primitive and the dialog are
recorded in an effect trace.  JavaScript exceptions are an `Except` error
component threaded together with the state.

`onLogin` below is the sequential execution of one resolution (the case in
which no other resolution for the same fingerprint is in flight).  The
concurrent join behaviour of the `pendingProxyResolves` map (lines 84-100)
is modelled by an explicit transition system `singleFlightStep`, and the
promise-chained dialog queue (lines 169-178) by the timing recursion
`dialogBegin` / `dialogSettle`; each is annotated with the source lines it
reflects.
-/

/-- `Credentials` from `vs/platform/request/common/request`:
`{username: string, password: string}`. -/
structure Credentials where
  username : String
  password : String
  deriving DecidableEq, Repr

/-- `AuthInfo`: the proxy authentication challenge delivered with the
`login` event; the `attempt` field is set to `1` on the first attempt and
`2` on a retry (line 61). -/
structure AuthInfo where
  scheme : String
  host : String
  port : Nat
  isProxy : Bool
  attempt : Nat
  deriving DecidableEq, Repr

/-- Modelled from the spec: the Fingerprinter.  The source computes
`String(hash({scheme: authInfo.scheme, host: authInfo.host, port: authInfo.port}))`
(line 82) with `hash` from `vs/base/common/hash`, which is outside the
provided sources.  Per the spec it is a pure deterministic mapping of the
identity fields (scheme, host, port) only — not `attempt` or `isProxy` —
to a stable string key. -/
def authInfoHash (authInfo : AuthInfo) : String :=
  authInfo.scheme ++ "/" ++ authInfo.host ++ "/" ++ toString authInfo.port

/-- Line 40: key namespace prefixed to the fingerprint for the
application-storage entries. -/
def PROXY_CREDENTIALS_SERVICE_KEY : String := "proxy-credentials://"

/-- `JSON.stringify(credentials)` (line 224), abstracted as a fixed
serialization of the username/password pair. -/
def serializeCredentials (c : Credentials) : String :=
  c.username ++ "\n" ++ c.password

/-! ### Association-list maps

`Map` objects (`pendingProxyResolves`, `sessionCredentials`) and the
key/value application storage are embedded as association lists with
`get`/`set`/`delete` matching the `Map` semantics: `set` replaces any
existing binding of the key, `delete` drops it. -/

/-- `Map.prototype.get`: the value bound to `k`, if any. -/
def assocGet {κ α : Type} [DecidableEq κ] (m : List (κ × α)) (k : κ) : Option α :=
  match m with
  | [] => none
  | (k2, v) :: rest => if k2 = k then some v else assocGet rest k

/-- `Map.prototype.delete`: drop every binding of `k`. -/
def assocRemove {κ α : Type} [DecidableEq κ] (m : List (κ × α)) (k : κ) : List (κ × α) :=
  match m with
  | [] => []
  | (k2, v) :: rest => if k2 = k then assocRemove rest k else (k2, v) :: assocRemove rest k

/-- `Map.prototype.set`: bind `k` to `v`, replacing any previous binding. -/
def assocSet {κ α : Type} [DecidableEq κ] (m : List (κ × α)) (k : κ) (v : α) : List (κ × α) :=
  (k, v) :: assocRemove m k

/-- Number of bindings of key `k` present in the association list. -/
def countKey {κ α : Type} [DecidableEq κ] (m : List (κ × α)) (k : κ) : Nat :=
  match m with
  | [] => 0
  | (k2, _) :: rest => if k2 = k then countKey rest k + 1 else countKey rest k

/-- `Set.prototype.add`: insert unless already present. -/
def setAdd (s : List String) (x : String) : List String :=
  if s.contains x then s else x :: s

/-! ### Observable effects, errors, externals, state -/

/-- Observable interactions of one resolution run with the collaborators:
reads of the application storage (line 149), calls to the decrypt
primitive (line 151), the two early returns that hand back looked-up
credentials (lines 142 and 166), the dialog being opened in a window
(line 208) with its prefill, and storage writes/removals from the reply
handler (lines 225 and 233). -/
inductive Effect where
  | storeGet (key : String)
  | decryptCall (blob : String)
  | sessionCacheReturn
  | storeCredentialsReturn
  | promptShown (prefillUsername prefillPassword : Option String)
  | storeWrite (key : String)
  | storeRemove (key : String)
  | cancelMemoShortCircuit
  | noWindowFound
  deriving DecidableEq, Repr

/-- JavaScript exceptions that can escape the embedded code: the
non-null-asserted destructuring on line 141 throws a `TypeError` when the
asserted value is `undefined`. -/
inductive JsError where
  | typeError
  deriving DecidableEq, Repr

/-- The external collaborators, as the values they return to one
resolution run: `encryptionMainService.decrypt`/`encrypt` and `JSON.parse`
may throw (modelled as `Except`), `getFocusedWindow() ||
getLastActiveWindow()` may find no window, and the dialog reply over the
response channel is either credentials with a `remember` flag or
`undefined` for a cancellation (line 212). -/
structure Externals where
  decrypt : String → Except String String
  parseCredentials : String → Except String Credentials
  encrypt : String → Except String String
  focusedOrLastActiveWindow : Option Nat
  dialogReply : Option (Credentials × Bool)

/-- The mutable fields of `ProxyAuthService` (lines 42-47) together with
the application storage it writes through
`applicationStorageMainService`.  `sessionCredentials` is a
`Map<string, Credentials | undefined>`: an entry may be present and yet
hold `undefined`, hence the inner `Option`. -/
structure ProxyAuthState where
  pendingProxyResolves : List String
  cancelledAuthInfoHashes : List String
  sessionCredentials : List (String × Option Credentials)
  applicationStorage : List (String × String)
  deriving DecidableEq, Repr

/-- The state at service construction: all maps and sets empty. -/
def initState : ProxyAuthState :=
  { pendingProxyResolves := []
    cancelledAuthInfoHashes := []
    sessionCredentials := []
    applicationStorage := [] }

/-! ### The resolution pipeline -/

/-- Lines 145-157: read the stored entry for the fingerprint from the
application storage, decrypt and parse it.  Any exception from decrypt or
parse is caught and logged (line 156), leaving `storedUsername` and
`storedPassword` `undefined` — exactly the no-entry outcome.  Returns the
parsed credentials (if any) together with the effects of the read. -/
def readStoredCredentials (ext : Externals) (storage : List (String × String))
    (authInfoHash : String) : Option Credentials × List Effect :=
  match assocGet storage (PROXY_CREDENTIALS_SERVICE_KEY ++ authInfoHash) with
  | none => (none, [Effect.storeGet (PROXY_CREDENTIALS_SERVICE_KEY ++ authInfoHash)])
  | some encryptedValue =>
    match ext.decrypt encryptedValue with
    | Except.error _ =>
      (none, [Effect.storeGet (PROXY_CREDENTIALS_SERVICE_KEY ++ authInfoHash),
              Effect.decryptCall encryptedValue])
    | Except.ok plaintext =>
      match ext.parseCredentials plaintext with
      | Except.error _ =>
        (none, [Effect.storeGet (PROXY_CREDENTIALS_SERVICE_KEY ++ authInfoHash),
                Effect.decryptCall encryptedValue])
      | Except.ok credentials =>
        (some credentials, [Effect.storeGet (PROXY_CREDENTIALS_SERVICE_KEY ++ authInfoHash),
                            Effect.decryptCall encryptedValue])

/-- Lines 181-259, `showProxyCredentialsDialog`: short-circuit on a
previously cancelled fingerprint (lines 182-186), bail out when no window
exists to host the dialog (lines 191-196), otherwise open the dialog with
the prefill of line 204-205 (`sessionCredentials?.username ??
storedUsername`, where `sessionCredentials.get` yields `undefined` both
for an absent key and for a present-but-undefined entry) and handle the
reply: on credentials, store or remove the persistent entry according to
`remember` with encrypt errors caught (lines 222-237); on cancellation,
record the fingerprint in `cancelledAuthInfoHashes` (line 244).  In both
reply cases line 256 then sets `sessionCredentials` to the dialog result
— on a cancellation that binds the fingerprint to `undefined`. -/
def showProxyCredentialsDialog (ext : Externals) (st : ProxyAuthState) (_authInfo : AuthInfo)
    (authInfoHash : String) (storedUsername storedPassword : Option String) :
    Option Credentials × ProxyAuthState × List Effect :=
  if st.cancelledAuthInfoHashes.contains authInfoHash then
    (none, st, [Effect.cancelMemoShortCircuit])
  else
    match ext.focusedOrLastActiveWindow with
    | none => (none, st, [Effect.noWindowFound])
    | some _window =>
      let sessionCreds : Option Credentials :=
        (assocGet st.sessionCredentials authInfoHash).getD none
      let prefillUsername : Option String :=
        (sessionCreds.map (fun c => c.username)).orElse (fun _ => storedUsername)
      let prefillPassword : Option String :=
        (sessionCreds.map (fun c => c.password)).orElse (fun _ => storedPassword)
      match ext.dialogReply with
      | some (reply, remember) =>
        let credentials : Credentials := { username := reply.username, password := reply.password }
        let storageStep : ProxyAuthState × List Effect :=
          if remember then
            match ext.encrypt (serializeCredentials credentials) with
            | Except.ok encryptedSerializedCredentials =>
              ({ st with applicationStorage := (assocSet st.applicationStorage (PROXY_CREDENTIALS_SERVICE_KEY ++ authInfoHash) encryptedSerializedCredentials) },
               [Effect.storeWrite (PROXY_CREDENTIALS_SERVICE_KEY ++ authInfoHash)])
            | Except.error _ => (st, [])
          else
            ({ st with applicationStorage := (assocRemove st.applicationStorage (PROXY_CREDENTIALS_SERVICE_KEY ++ authInfoHash)) },
             [Effect.storeRemove (PROXY_CREDENTIALS_SERVICE_KEY ++ authInfoHash)])
        (some credentials,
         { storageStep.1 with sessionCredentials := (assocSet storageStep.1.sessionCredentials authInfoHash (some credentials)) },
         Effect.promptShown prefillUsername prefillPassword :: storageStep.2)
      | none =>
        (none,
         { st with
             cancelledAuthInfoHashes := (setAdd st.cancelledAuthInfoHashes authInfoHash),
             sessionCredentials := (assocSet st.sessionCredentials authInfoHash none) },
         [Effect.promptShown prefillUsername prefillPassword])

/-- Lines 132-179, `doResolveProxyCredentials`: when `attempt === 1` and
`sessionCredentials` has an entry for the fingerprint, line 141
destructures `sessionCredentials.get(authInfoHash)!` — if the entry holds
a credentials object it is returned (line 142), if it holds `undefined`
the non-null-asserted destructuring throws a `TypeError`.  Otherwise the
stored credentials are read (lines 145-157); when `attempt === 1` and
both stored fields are strings they are recorded in the session cache and
returned (lines 162-167); otherwise the dialog is chained (lines
169-178).  In this sequential model the chain in front of the dialog is
empty (`previousDialog` is `undefined`, so the body runs immediately and
the settling of `currentDialog` restores it to `undefined`); the queueing
of a non-empty chain is modelled by `dialogBegin`/`dialogSettle` below. -/
def doResolveProxyCredentials (ext : Externals) (st : ProxyAuthState) (authInfo : AuthInfo)
    (authInfoHash : String) :
    Except JsError (Option Credentials) × ProxyAuthState × List Effect :=
  match authInfo.attempt == 1, assocGet st.sessionCredentials authInfoHash with
  | true, some (some sessionValue) =>
    (Except.ok (some { username := sessionValue.username, password := sessionValue.password }),
     st, [Effect.sessionCacheReturn])
  | true, some none =>
    (Except.error JsError.typeError, st, [])
  | _, _ =>
    let storedRead := readStoredCredentials ext st.applicationStorage authInfoHash
    let storedUsername : Option String := storedRead.1.map (fun c => c.username)
    let storedPassword : Option String := storedRead.1.map (fun c => c.password)
    if authInfo.attempt == 1 && storedUsername.isSome && storedPassword.isSome then
      let credentials : Credentials :=
        { username := storedUsername.getD "", password := storedPassword.getD "" }
      (Except.ok (some credentials),
       { st with sessionCredentials := (assocSet st.sessionCredentials authInfoHash (some credentials)) },
       storedRead.2 ++ [Effect.storeCredentialsReturn])
    else
      let dialogRun := showProxyCredentialsDialog ext st authInfo authInfoHash
        storedUsername storedPassword
      (Except.ok dialogRun.1, dialogRun.2.1, storedRead.2 ++ dialogRun.2.2)

/-- Lines 113-130, `resolveProxyCredentials`: a logging wrapper that
passes the credentials (or `undefined`) through; it has no `catch`, so a
rejection of `doResolveProxyCredentials` propagates. -/
def resolveProxyCredentials (ext : Externals) (st : ProxyAuthState) (authInfo : AuthInfo)
    (authInfoHash : String) :
    Except JsError (Option Credentials) × ProxyAuthState × List Effect :=
  let run := doResolveProxyCredentials ext st authInfo authInfoHash
  match run.1 with
  | Except.ok (some credentials) => (Except.ok (some credentials), run.2.1, run.2.2)
  | Except.ok none => (Except.ok none, run.2.1, run.2.2)
  | Except.error e => (Except.error e, run.2.1, run.2.2)

/-- Lines 69-111, `onLogin`, for one challenge with no resolution for its
fingerprint already in flight (the join branch of lines 96-100 is
modelled by the `singleFlightStep` transition system below): a non-proxy
challenge returns immediately with no state change (lines 70-72);
otherwise the fingerprint is computed, a pending entry is registered
(line 90), the resolution runs, and the `finally` of lines 93-95 removes
the pending entry whether the resolution fulfilled or rejected. -/
def onLogin (ext : Externals) (st : ProxyAuthState) (authInfo : AuthInfo) :
    Except JsError (Option Credentials) × ProxyAuthState × List Effect :=
  if !authInfo.isProxy then
    (Except.ok none, st, [])
  else
    let fingerprint := authInfoHash authInfo
    let stPending := { st with pendingProxyResolves := setAdd st.pendingProxyResolves fingerprint }
    let run := resolveProxyCredentials ext stPending authInfo fingerprint
    (run.1,
     { run.2.1 with pendingProxyResolves := (run.2.1.pendingProxyResolves.filter (fun h => h ≠ fingerprint)) },
     run.2.2)

/-! ### Single-flight deduplication (lines 84-100)

The `login` event handler runs on a single-threaded event loop, so the
synchronous prefix of `onLogin` — reading `pendingProxyResolves` and, when
no entry exists, creating the promise and registering it (lines 85-90) —
is atomic with respect to other callers.  The transition system below has
one event for that prefix (`arrive`) and one for the settling of the
shared promise, at which the creator's `finally` removes the map entry
whatever the outcome was (lines 91-95, `complete`).  Callers are
identified by a number; `joined` records which resolution each caller
awaits, and `completed` the outcome each settled resolution delivered to
its awaiters. -/

/-- The three ways a resolution promise can settle: fulfilled with
credentials, fulfilled with `undefined`, or rejected. -/
inductive ResolutionOutcome where
  | credentials (c : Credentials)
  | noCredentials
  | failed (e : JsError)
  deriving DecidableEq, Repr

/-- State of the deduplicator: `pending` is `pendingProxyResolves`
(fingerprint to in-flight resolution), `joined` maps each caller to the
resolution it awaits, `completed` the settled outcomes. -/
structure SingleFlightState where
  pending : List (String × Nat)
  nextResolutionId : Nat
  joined : List (Nat × Nat)
  completed : List (Nat × ResolutionOutcome)
  deriving DecidableEq, Repr

/-- No caller, no pending resolution. -/
def initSingleFlight : SingleFlightState :=
  { pending := [], nextResolutionId := 0, joined := [], completed := [] }

/-- `arrive caller fp`: the synchronous prefix of `onLogin` for a proxy
challenge (lines 85-90); `complete fp out`: the resolution promise for
`fp` settles with outcome `out` and the `finally` deletes the pending
entry (lines 91-95). -/
inductive SingleFlightEvent where
  | arrive (caller : Nat) (fp : String)
  | complete (fp : String) (out : ResolutionOutcome)
  deriving DecidableEq, Repr

/-- One step of the deduplicator.  An arriving caller joins the pending
resolution for its fingerprint when one exists (lines 96-100) — no new
work is started — and otherwise registers a fresh resolution (lines
86-90).  A completion delivers its outcome to the resolution's awaiters
and removes the pending entry unconditionally. -/
def singleFlightStep (s : SingleFlightState) : SingleFlightEvent → SingleFlightState
  | SingleFlightEvent.arrive caller fp =>
    match assocGet s.pending fp with
    | some r => { s with joined := (assocSet s.joined caller r) }
    | none =>
      { s with
          pending := (assocSet s.pending fp s.nextResolutionId),
          joined := (assocSet s.joined caller s.nextResolutionId),
          nextResolutionId := s.nextResolutionId + 1 }
  | SingleFlightEvent.complete fp out =>
    match assocGet s.pending fp with
    | some r =>
      { s with
          pending := (assocRemove s.pending fp),
          completed := (assocSet s.completed r out) }
    | none => s

/-- The state after a sequence of events from the initial state. -/
def singleFlightRun (events : List SingleFlightEvent) : SingleFlightState :=
  events.foldl singleFlightStep initSingleFlight

/-- The outcome a caller receives: the settled outcome of the resolution
it awaits. -/
def receivedOutcome (s : SingleFlightState) (caller : Nat) : Option ResolutionOutcome :=
  (assocGet s.joined caller).bind (fun r => assocGet s.completed r)

/-! ### Dialog serialization (lines 169-178)

Each call captures the previous `currentDialog` promise, replaces it with
a new promise whose body first awaits the previous one and only then
shows the dialog; when the settling dialog is still the latest the field
is reset to `undefined`.  For one chain of requests, indexed in enqueue
order, this yields the timing recursion below: request `0` awaits
`undefined` and begins at once; request `n+1` begins when request `n`'s
promise settles; request `n` holds the prompt open for `duration n`. -/

/-- Instant at which request `n`'s prompt closes (its promise settles). -/
def dialogSettle (duration : Nat → Nat) : Nat → Nat
  | 0 => duration 0
  | n + 1 => dialogSettle duration n + duration (n + 1)

/-- Instant at which request `n`'s prompt opens. -/
def dialogBegin (duration : Nat → Nat) : Nat → Nat
  | 0 => 0
  | n + 1 => dialogSettle duration n

/-- Request `n`'s prompt is on screen at instant `t`. -/
def dialogActiveAt (duration : Nat → Nat) (n t : Nat) : Prop :=
  dialogBegin duration n ≤ t ∧ t < dialogSettle duration n

instance (duration : Nat → Nat) (n t : Nat) : Decidable (dialogActiveAt duration n t) := by
  unfold dialogActiveAt
  infer_instance

/-! ### Concrete scenarios

Small closed inputs used to evaluate the pipeline in the theorems below:
one proxy challenge (attempt 1 and its attempt-2 retry), oracles for a
user who cancels, a populated store, a failing decrypt, and a missing
window, and the states reached by running the pipeline on them. -/

/-- A proxy challenge, first attempt. -/
def sampleAuthInfo1 : AuthInfo :=
  { scheme := "s", host := "h", port := 1, isProxy := true, attempt := 1 }

/-- The same challenge on the retry attempt. -/
def sampleAuthInfo2 : AuthInfo := { sampleAuthInfo1 with attempt := 2 }

/-- The same challenge fields with `isProxy` false. -/
def sampleNonProxy : AuthInfo := { sampleAuthInfo1 with isProxy := false }

/-- The fingerprint of the sample challenge. -/
def sampleHash : String := authInfoHash sampleAuthInfo1

/-- Sample credentials. -/
def sampleCredentials : Credentials := { username := "u", password := "p" }

/-- Oracle: a window exists and the user cancels the dialog. -/
def extCancel : Externals :=
  { decrypt := fun s => Except.ok s
    parseCredentials := fun _ => Except.error "malformed"
    encrypt := fun s => Except.ok s
    focusedOrLastActiveWindow := some 1
    dialogReply := none }

/-- State after resolving the sample challenge against `extCancel` from
the initial state: the user cancelled the only prompt. -/
def stAfterCancel : ProxyAuthState := (onLogin extCancel initState sampleAuthInfo1).2.1

/-- Oracle: the store entry decrypts and parses to `sampleCredentials`; a
window exists; the user would cancel a dialog. -/
def extStore : Externals :=
  { decrypt := fun _ => Except.ok "plaintext"
    parseCredentials := fun _ => Except.ok sampleCredentials
    encrypt := fun s => Except.ok s
    focusedOrLastActiveWindow := some 1
    dialogReply := none }

/-- Initial state with a persisted entry for the sample fingerprint. -/
def stWithStore : ProxyAuthState :=
  { initState with applicationStorage := [(PROXY_CREDENTIALS_SERVICE_KEY ++ sampleHash, "blob")] }

/-- State after an attempt-1 resolution against the populated store: the
stored credentials were returned and recorded in the session cache. -/
def stAfterStoreHit : ProxyAuthState := (onLogin extStore stWithStore sampleAuthInfo1).2.1

/-- State after the attempt-2 retry against `extStore`: the dialog was
shown and the user cancelled. -/
def stAfterCancel2 : ProxyAuthState := (onLogin extStore stAfterStoreHit sampleAuthInfo2).2.1

/-- Oracle whose decrypt always throws. -/
def extDecryptFail : Externals :=
  { decrypt := fun _ => Except.error "decrypt failure"
    parseCredentials := fun _ => Except.error "malformed"
    encrypt := fun s => Except.ok s
    focusedOrLastActiveWindow := some 1
    dialogReply := none }

/-- Oracle with no window available to host a dialog. -/
def extNoWindow : Externals := { extCancel with focusedOrLastActiveWindow := none }

/-- A deduplicator state with one resolution (id 7) in flight for
fingerprint "f". -/
def demoSingleFlight : SingleFlightState :=
  { pending := [("f", 7)], nextResolutionId := 8, joined := [], completed := [] }

/-! ### Association-map lemmas -/

theorem assocGet_remove_self {κ α : Type} [DecidableEq κ] (m : List (κ × α)) (k : κ) :
    assocGet (assocRemove m k) k = none := by
  induction m with
  | nil => rfl
  | cons p rest ih =>
    obtain ⟨k2, v⟩ := p
    by_cases h2 : k2 = k
    · simp [assocRemove, h2, ih]
    · simp [assocRemove, assocGet, h2, ih]

theorem assocGet_remove_ne {κ α : Type} [DecidableEq κ] (m : List (κ × α)) (k k2 : κ)
    (h : k ≠ k2) : assocGet (assocRemove m k) k2 = assocGet m k2 := by
  induction m with
  | nil => rfl
  | cons p rest ih =>
    obtain ⟨k3, v⟩ := p
    by_cases h3 : k3 = k
    · simp [assocRemove, assocGet, h3, h, ih]
    · by_cases h4 : k3 = k2
      · simp [assocRemove, assocGet, h3, h4, Ne.symm h]
      · simp [assocRemove, assocGet, h3, h4, ih]

theorem assocGet_set_self {κ α : Type} [DecidableEq κ] (m : List (κ × α)) (k : κ) (v : α) :
    assocGet (assocSet m k v) k = some v := by
  simp [assocSet, assocGet]

theorem assocGet_set_ne {κ α : Type} [DecidableEq κ] (m : List (κ × α)) (k k2 : κ) (v : α)
    (h : k ≠ k2) : assocGet (assocSet m k v) k2 = assocGet m k2 := by
  have h2 : ¬k = k2 := h
  simp [assocSet, assocGet, h2, assocGet_remove_ne m k k2 h]

theorem countKey_remove_self {κ α : Type} [DecidableEq κ] (m : List (κ × α)) (k : κ) :
    countKey (assocRemove m k) k = 0 := by
  induction m with
  | nil => rfl
  | cons p rest ih =>
    obtain ⟨k2, v⟩ := p
    by_cases h2 : k2 = k
    · simp [assocRemove, h2, ih]
    · simp [assocRemove, countKey, h2, ih]

theorem countKey_remove_le {κ α : Type} [DecidableEq κ] (m : List (κ × α)) (k k2 : κ) :
    countKey (assocRemove m k) k2 ≤ countKey m k2 := by
  induction m with
  | nil => exact Nat.le_refl 0
  | cons p rest ih =>
    obtain ⟨k3, v⟩ := p
    by_cases h3 : k3 = k
    · by_cases h4 : k3 = k2
      · simp only [assocRemove, if_pos h3, countKey, if_pos h4]
        exact Nat.le_succ_of_le ih
      · simp only [assocRemove, if_pos h3, countKey, if_neg h4]
        exact ih
    · by_cases h4 : k3 = k2
      · simp only [assocRemove, if_neg h3, countKey, if_pos h4]
        exact Nat.succ_le_succ ih
      · simp only [assocRemove, if_neg h3, countKey, if_neg h4]
        exact ih

theorem countKey_set_self {κ α : Type} [DecidableEq κ] (m : List (κ × α)) (k : κ) (v : α) :
    countKey (assocSet m k v) k = 1 := by
  simp [assocSet, countKey, countKey_remove_self]

theorem countKey_set_le {κ α : Type} [DecidableEq κ] (m : List (κ × α)) (k k2 : κ) (v : α)
    (h : k ≠ k2) : countKey (assocSet m k v) k2 ≤ countKey m k2 := by
  have h2 : ¬k = k2 := h
  simp only [assocSet, countKey, if_neg h2]
  exact countKey_remove_le m k k2

/-! ### Trace-shape lemmas for the pipeline stages -/

theorem readStoredCredentials_trace (ext : Externals) (storage : List (String × String))
    (h : String) :
    (readStoredCredentials ext storage h).2 =
      [Effect.storeGet (PROXY_CREDENTIALS_SERVICE_KEY ++ h)] ∨
    ∃ b, (readStoredCredentials ext storage h).2 =
      [Effect.storeGet (PROXY_CREDENTIALS_SERVICE_KEY ++ h), Effect.decryptCall b] := by
  unfold readStoredCredentials
  split
  · exact Or.inl rfl
  · split
    · exact Or.inr ⟨_, rfl⟩
    · split
      · exact Or.inr ⟨_, rfl⟩
      · exact Or.inr ⟨_, rfl⟩

theorem readStoredCredentials_effects_shape (ext : Externals)
    (storage : List (String × String)) (h : String) :
    ∀ e ∈ (readStoredCredentials ext storage h).2,
      (∃ k, e = Effect.storeGet k) ∨ ∃ b, e = Effect.decryptCall b := by
  intro e he
  rcases readStoredCredentials_trace ext storage h with ht | ⟨b, ht⟩ <;> rw [ht] at he <;>
    simp only [List.mem_cons, List.mem_singleton, List.not_mem_nil, or_false] at he
  · exact Or.inl ⟨PROXY_CREDENTIALS_SERVICE_KEY ++ h, he⟩
  · rcases he with he | he
    · exact Or.inl ⟨PROXY_CREDENTIALS_SERVICE_KEY ++ h, he⟩
    · exact Or.inr ⟨b, he⟩

theorem showProxyCredentialsDialog_cancelled (ext : Externals) (st : ProxyAuthState)
    (authInfo : AuthInfo) (h : String) (storedUsername storedPassword : Option String)
    (hc : st.cancelledAuthInfoHashes.contains h = true) :
    showProxyCredentialsDialog ext st authInfo h storedUsername storedPassword =
      (none, st, [Effect.cancelMemoShortCircuit]) := by
  unfold showProxyCredentialsDialog
  rw [if_pos hc]

theorem showProxyCredentialsDialog_effects_shape (ext : Externals) (st : ProxyAuthState)
    (authInfo : AuthInfo) (h : String) (storedUsername storedPassword : Option String) :
    ∀ e ∈ (showProxyCredentialsDialog ext st authInfo h storedUsername storedPassword).2.2,
      e ≠ Effect.sessionCacheReturn ∧ e ≠ Effect.storeCredentialsReturn := by
  unfold showProxyCredentialsDialog
  split
  · intro e he
    simp only [List.mem_singleton] at he
    subst he
    exact ⟨by simp, by simp⟩
  · split
    · intro e he
      simp only [List.mem_singleton] at he
      subst he
      exact ⟨by simp, by simp⟩
    · split
      · dsimp only
        split
        · split
          · intro e he
            simp only [List.mem_cons, List.mem_singleton, List.not_mem_nil, or_false] at he
            rcases he with he | he <;> subst he <;> exact ⟨by simp, by simp⟩
          · intro e he
            simp only [List.mem_cons, List.not_mem_nil, or_false] at he
            subst he
            exact ⟨by simp, by simp⟩
        · intro e he
          simp only [List.mem_cons, List.mem_singleton, List.not_mem_nil, or_false] at he
          rcases he with he | he <;> subst he <;> exact ⟨by simp, by simp⟩
      · intro e he
        simp only [List.mem_cons, List.not_mem_nil, or_false] at he
        subst he
        exact ⟨by simp, by simp⟩

/-! ### Single-flight lemmas -/

theorem singleFlightStep_countKey_le (s : SingleFlightState) (e : SingleFlightEvent)
    (fp : String) (h : countKey s.pending fp ≤ 1) :
    countKey (singleFlightStep s e).pending fp ≤ 1 := by
  rcases e with ⟨caller, fp2⟩ | ⟨fp2, out⟩
  · unfold singleFlightStep
    rcases hg : assocGet s.pending fp2 with _ | r
    · by_cases h2 : fp2 = fp
      · subst h2
        simp [hg, countKey_set_self]
      · simpa [hg] using Nat.le_trans (countKey_set_le s.pending fp2 fp s.nextResolutionId h2) h
    · simpa [hg] using h
  · unfold singleFlightStep
    rcases hg : assocGet s.pending fp2 with _ | r
    · simpa [hg] using h
    · simpa [hg] using Nat.le_trans (countKey_remove_le s.pending fp2 fp) h

theorem singleFlightRun_countKey_le (events : List SingleFlightEvent) (fp : String) :
    countKey (singleFlightRun events).pending fp ≤ 1 := by
  suffices hgen : ∀ s : SingleFlightState, (∀ f, countKey s.pending f ≤ 1) →
      ∀ f, countKey (events.foldl singleFlightStep s).pending f ≤ 1 by
    refine hgen initSingleFlight (fun f => ?_) fp
    simp [initSingleFlight, countKey]
  induction events with
  | nil => intro s hs f; exact hs f
  | cons e rest ih =>
    intro s hs f
    exact ih (singleFlightStep s e) (fun f2 => singleFlightStep_countKey_le s e f2 (hs f2)) f

/-! ### Dialog-timing lemmas -/

theorem dialogSettle_eq (duration : Nat → Nat) (n : Nat) :
    dialogSettle duration n = dialogBegin duration n + duration n := by
  cases n with
  | zero => show duration 0 = 0 + duration 0; rw [Nat.zero_add]
  | succ k => rfl

theorem dialogBegin_le_settle (duration : Nat → Nat) (n : Nat) :
    dialogBegin duration n ≤ dialogSettle duration n := by
  rw [dialogSettle_eq]
  exact Nat.le_add_right _ _

theorem dialogSettle_mono (duration : Nat → Nat) {i j : Nat} (h : i ≤ j) :
    dialogSettle duration i ≤ dialogSettle duration j := by
  induction j with
  | zero => simp [Nat.le_zero.mp h]
  | succ k ih =>
    rcases Nat.lt_or_ge i (k + 1) with h2 | h2
    · have h3 : dialogSettle duration k ≤ dialogSettle duration (k + 1) := by
        show dialogSettle duration k ≤ dialogSettle duration k + duration (k + 1)
        exact Nat.le_add_right _ _
      exact Nat.le_trans (ih (Nat.lt_succ_iff.mp h2)) h3
    · have h3 : i = k + 1 := Nat.le_antisymm h h2
      subst h3
      exact Nat.le_refl _

theorem dialogSettle_le_begin (duration : Nat → Nat) {i j : Nat} (h : i < j) :
    dialogSettle duration i ≤ dialogBegin duration j := by
  cases j with
  | zero => exact absurd h (Nat.not_lt_zero i)
  | succ k =>
    show dialogSettle duration i ≤ dialogSettle duration k
    exact dialogSettle_mono duration (Nat.lt_succ_iff.mp h)

/-! ### Claims -/

/-- C8: for every challenge with `isProxy == false`, `onLogin` returns no
credentials immediately and causes no mutation of the session cache, the
application storage, the cancellation memo or the pending-resolution map,
and no observable effect (lines 70-72). -/
theorem non_proxy_challenges_inert (ext : Externals) (st : ProxyAuthState)
    (scheme host : String) (port attempt : Nat) :
    onLogin ext st
        { scheme := scheme, host := host, port := port, isProxy := false, attempt := attempt } =
      (Except.ok none, st, []) := rfl

/-- C9: when no window exists to host the dialog and the fingerprint was
not previously cancelled, `showProxyCredentialsDialog` returns no
credentials and leaves the state — in particular the cancelled set —
entirely unchanged (lines 191-196), so a later challenge for the same
fingerprint may prompt again. -/
theorem prompt_gateway_failure_not_memoized (ext : Externals) (st : ProxyAuthState)
    (authInfo : AuthInfo) (h : String) (storedUsername storedPassword : Option String)
    (hw : ext.focusedOrLastActiveWindow = none)
    (hnc : st.cancelledAuthInfoHashes.contains h = false) :
    showProxyCredentialsDialog ext st authInfo h storedUsername storedPassword =
      (none, st, [Effect.noWindowFound]) := by
  unfold showProxyCredentialsDialog
  rw [if_neg (by simp only [hnc]; simp), hw]

/-- Witness for C9 at a concrete input: the sample fingerprint from the
initial state with the window-less oracle. -/
theorem prompt_gateway_failure_not_memoized_witness :
    showProxyCredentialsDialog extNoWindow initState sampleAuthInfo1 sampleHash none none =
      (none, initState, [Effect.noWindowFound]) :=
  prompt_gateway_failure_not_memoized extNoWindow initState sampleAuthInfo1 sampleHash
    none none rfl rfl

/-- C10: after the user cancels the prompt for the sample fingerprint
(state `stAfterCancel`, reached from the initial state), the session
cache holds an entry binding the fingerprint to `undefined` — presence
succeeds while the value carries no credentials — and the next attempt-1
resolution for that fingerprint reaches the session-cache branch,
destructures that `undefined` under the non-null assertion of line 141,
and throws a `TypeError` instead of returning no credentials. -/
theorem cancelled_session_entry_typeerror :
    assocGet stAfterCancel.sessionCredentials sampleHash = some none ∧
    (onLogin extCancel stAfterCancel sampleAuthInfo1).1 = Except.error JsError.typeError :=
  ⟨rfl, rfl⟩

/-- C4 (code-bug evidence): in the reachable state `stAfterCancel` the
attempt-1 resolution raises a `TypeError` (line 141) instead of degrading
to no credentials, refuting total degradation. -/
theorem resolve_throws_on_cancelled_session_entry :
    (doResolveProxyCredentials extCancel stAfterCancel sampleAuthInfo1 sampleHash).1 =
      Except.error JsError.typeError := rfl

/-- C3 (code-bug evidence): on a user cancellation the resolution adds
the fingerprint to the cancelled set, returns no credentials and leaves
the application storage unchanged, but — against the claimed frame
condition — line 256 also writes an `undefined` entry for the fingerprint
into the session cache. -/
theorem cancel_mutates_session_cache :
    (showProxyCredentialsDialog extCancel initState sampleAuthInfo1 sampleHash none none).1 = none ∧
    (showProxyCredentialsDialog extCancel initState sampleAuthInfo1 sampleHash none none).2.1.cancelledAuthInfoHashes = [sampleHash] ∧
    (showProxyCredentialsDialog extCancel initState sampleAuthInfo1 sampleHash none none).2.1.applicationStorage = initState.applicationStorage ∧
    assocGet initState.sessionCredentials sampleHash = none ∧
    assocGet (showProxyCredentialsDialog extCancel initState sampleAuthInfo1 sampleHash none none).2.1.sessionCredentials sampleHash = some none :=
  ⟨rfl, rfl, rfl, rfl, rfl⟩

/-- C2 counterexample: in the reachable state `stAfterCancel2` the sample
fingerprint is in the cancelled set, yet a further resolution for it
reads the persistent store and calls decrypt (lines 145-157 run before
the cancellation check of line 182), refuting the claim that it returns
no credentials without reconsulting the store. -/
theorem cancellation_not_fully_memoized :
    stAfterCancel2.cancelledAuthInfoHashes.contains sampleHash = true ∧
    Effect.storeGet (PROXY_CREDENTIALS_SERVICE_KEY ++ sampleHash) ∈
      (onLogin extStore stAfterCancel2 sampleAuthInfo2).2.2 ∧
    Effect.decryptCall "blob" ∈ (onLogin extStore stAfterCancel2 sampleAuthInfo2).2.2 :=
  ⟨rfl, by decide, by decide⟩

/-- C2 (amended): once a fingerprint is in the cancelled set, no
resolution for it ever opens the dialog — the Prompt Gateway is never
invoked — and the dialog stage short-circuits to no credentials with the
state unchanged; the attempt-guarded session-cache branch and the
persistent-store read of lines 145-157 are, however, still executed
before that check. -/
theorem cancellation_memoization_amended (ext : Externals) (st : ProxyAuthState)
    (authInfo : AuthInfo) (h : String) (storedUsername storedPassword : Option String)
    (hc : st.cancelledAuthInfoHashes.contains h = true) :
    (∀ u p, Effect.promptShown u p ∉ (doResolveProxyCredentials ext st authInfo h).2.2) ∧
    showProxyCredentialsDialog ext st authInfo h storedUsername storedPassword =
      (none, st, [Effect.cancelMemoShortCircuit]) := by
  refine ⟨?_, showProxyCredentialsDialog_cancelled ext st authInfo h storedUsername storedPassword hc⟩
  intro u p
  unfold doResolveProxyCredentials
  split
  · simp
  · simp
  · dsimp only
    split
    · intro hmem
      simp only [List.mem_append, List.mem_singleton] at hmem
      rcases hmem with hmem | hmem
      · rcases readStoredCredentials_effects_shape ext st.applicationStorage h _ hmem with
          ⟨k, hk⟩ | ⟨b, hb⟩ <;> simp_all
      · simp at hmem
    · rw [showProxyCredentialsDialog_cancelled ext st authInfo h _ _ hc]
      intro hmem
      simp only [List.mem_append, List.mem_singleton] at hmem
      rcases hmem with hmem | hmem
      · rcases readStoredCredentials_effects_shape ext st.applicationStorage h _ hmem with
          ⟨k, hk⟩ | ⟨b, hb⟩ <;> simp_all
      · simp at hmem

/-- Witness for C2 (amended) at a concrete input: in the reachable
post-cancellation state `stAfterCancel2` the attempt-2 resolution shows
no prompt and the dialog stage short-circuits. -/
theorem cancellation_memoization_amended_witness :
    Effect.promptShown none none ∉
      (doResolveProxyCredentials extStore stAfterCancel2 sampleAuthInfo2 sampleHash).2.2 ∧
    showProxyCredentialsDialog extStore stAfterCancel2 sampleAuthInfo2 sampleHash none none =
      (none, stAfterCancel2, [Effect.cancelMemoShortCircuit]) :=
  ⟨(cancellation_memoization_amended extStore stAfterCancel2 sampleAuthInfo2 sampleHash
      none none rfl).1 none none,
   (cancellation_memoization_amended extStore stAfterCancel2 sampleAuthInfo2 sampleHash
      none none rfl).2⟩

/-- C5 (amended): on an attempt-2 challenge the session-cache return
branch (lines 138-143) and the stored-credentials return branch (lines
162-167) are both skipped — no cached or stored credential is ever
returned, so a rejected credential is never silently replayed — and the
resolution always proceeds to the dialog stage, whose first act is the
CancelledSet check; the persistent store is, however, still read (lines
145-157), its values serving only as dialog prefill. -/
theorem attempt2_semantics_amended (ext : Externals) (st : ProxyAuthState)
    (authInfo : AuthInfo) (h : String) (ha : authInfo.attempt = 2) :
    Effect.sessionCacheReturn ∉ (doResolveProxyCredentials ext st authInfo h).2.2 ∧
    Effect.storeCredentialsReturn ∉ (doResolveProxyCredentials ext st authInfo h).2.2 ∧
    doResolveProxyCredentials ext st authInfo h =
      (Except.ok (showProxyCredentialsDialog ext st authInfo h
          ((readStoredCredentials ext st.applicationStorage h).1.map (fun c => c.username))
          ((readStoredCredentials ext st.applicationStorage h).1.map (fun c => c.password))).1,
       (showProxyCredentialsDialog ext st authInfo h
          ((readStoredCredentials ext st.applicationStorage h).1.map (fun c => c.username))
          ((readStoredCredentials ext st.applicationStorage h).1.map (fun c => c.password))).2.1,
       (readStoredCredentials ext st.applicationStorage h).2 ++
         (showProxyCredentialsDialog ext st authInfo h
            ((readStoredCredentials ext st.applicationStorage h).1.map (fun c => c.username))
            ((readStoredCredentials ext st.applicationStorage h).1.map (fun c => c.password))).2.2) := by
  have hb : (authInfo.attempt == 1) = false := by simp [ha]
  have key : doResolveProxyCredentials ext st authInfo h =
      (Except.ok (showProxyCredentialsDialog ext st authInfo h
          ((readStoredCredentials ext st.applicationStorage h).1.map (fun c => c.username))
          ((readStoredCredentials ext st.applicationStorage h).1.map (fun c => c.password))).1,
       (showProxyCredentialsDialog ext st authInfo h
          ((readStoredCredentials ext st.applicationStorage h).1.map (fun c => c.username))
          ((readStoredCredentials ext st.applicationStorage h).1.map (fun c => c.password))).2.1,
       (readStoredCredentials ext st.applicationStorage h).2 ++
         (showProxyCredentialsDialog ext st authInfo h
            ((readStoredCredentials ext st.applicationStorage h).1.map (fun c => c.username))
            ((readStoredCredentials ext st.applicationStorage h).1.map (fun c => c.password))).2.2) := by
    unfold doResolveProxyCredentials
    simp only [hb, Bool.false_and, Bool.false_eq_true, if_false]
  refine ⟨?_, ?_, key⟩ <;> rw [key] <;> intro hmem <;>
    simp only [List.mem_append] at hmem <;> rcases hmem with hmem | hmem
  · rcases readStoredCredentials_effects_shape ext st.applicationStorage h _ hmem with
      ⟨k, hk⟩ | ⟨b, hbl⟩ <;> simp_all
  · exact absurd rfl (showProxyCredentialsDialog_effects_shape ext st authInfo h _ _ _ hmem).1
  · rcases readStoredCredentials_effects_shape ext st.applicationStorage h _ hmem with
      ⟨k, hk⟩ | ⟨b, hbl⟩ <;> simp_all
  · exact absurd rfl (showProxyCredentialsDialog_effects_shape ext st authInfo h _ _ _ hmem).2

/-- Witness for C5 (amended) at a concrete input: the attempt-2 retry
against the populated store returns no cached or stored credential. -/
theorem attempt2_semantics_amended_witness :
    Effect.sessionCacheReturn ∉
      (doResolveProxyCredentials extStore stWithStore sampleAuthInfo2 sampleHash).2.2 :=
  (attempt2_semantics_amended extStore stWithStore sampleAuthInfo2 sampleHash rfl).1

/-- C5 counterexample: on the attempt-2 retry the persistent store is
consulted nonetheless — the run reads the storage entry and calls
decrypt — refuting the claim that neither source is consulted. -/
theorem attempt2_store_still_read :
    sampleAuthInfo2.attempt = 2 ∧
    Effect.storeGet (PROXY_CREDENTIALS_SERVICE_KEY ++ sampleHash) ∈
      (doResolveProxyCredentials extStore stWithStore sampleAuthInfo2 sampleHash).2.2 ∧
    Effect.decryptCall "blob" ∈
      (doResolveProxyCredentials extStore stWithStore sampleAuthInfo2 sampleHash).2.2 :=
  ⟨rfl, by decide, by decide⟩

/-- C6: when the stored entry for the fingerprint exists but decrypt or
parse fails, the failure is swallowed (lines 147-157): the read yields no
credentials — exactly as if no entry were stored — and, whenever the
session-cache branch is not taken, the resolution falls through to the
dialog stage with empty store prefill instead of propagating the error. -/
theorem store_read_failure_recovery (ext : Externals) (st : ProxyAuthState)
    (authInfo : AuthInfo) (h enc : String)
    (hnb : (authInfo.attempt == 1) = false ∨ assocGet st.sessionCredentials h = none)
    (hget : assocGet st.applicationStorage (PROXY_CREDENTIALS_SERVICE_KEY ++ h) = some enc)
    (hfail : (∃ m, ext.decrypt enc = Except.error m) ∨
      ∃ plain m, ext.decrypt enc = Except.ok plain ∧
        ext.parseCredentials plain = Except.error m) :
    (readStoredCredentials ext st.applicationStorage h).1 = none ∧
    doResolveProxyCredentials ext st authInfo h =
      (Except.ok (showProxyCredentialsDialog ext st authInfo h none none).1,
       (showProxyCredentialsDialog ext st authInfo h none none).2.1,
       (readStoredCredentials ext st.applicationStorage h).2 ++
         (showProxyCredentialsDialog ext st authInfo h none none).2.2) := by
  have h1 : (readStoredCredentials ext st.applicationStorage h).1 = none := by
    unfold readStoredCredentials
    split
    · rfl
    · split
      · rfl
      · split
        · rfl
        · exfalso
          rcases hfail with ⟨m, hd⟩ | ⟨plain, m, hd, hp⟩ <;> simp_all
  refine ⟨h1, ?_⟩
  unfold doResolveProxyCredentials
  rcases hnb with hb | hs
  · simp only [hb, h1, Option.map_none', Option.isSome_none, Bool.false_and, Bool.and_false,
      Bool.false_eq_true, if_false]
  · cases hb2 : authInfo.attempt == 1 <;>
      simp only [hb2, hs, h1, Option.map_none', Option.isSome_none, Bool.false_and,
        Bool.true_and, Bool.and_false, Bool.false_eq_true, if_false]

/-- Witness for C6 at a concrete input: with a stored blob and a decrypt
oracle that always throws, the read yields no credentials. -/
theorem store_read_failure_recovery_witness :
    (readStoredCredentials extDecryptFail stWithStore.applicationStorage sampleHash).1 = none :=
  (store_read_failure_recovery extDecryptFail stWithStore sampleAuthInfo1 sampleHash "blob"
    (Or.inr rfl) rfl (Or.inl ⟨"decrypt failure", rfl⟩)).1

/-- C1: single-flight deduplication (lines 84-100).  (i) Along any event
sequence from the initial state, at most one pending resolution exists
per fingerprint; (ii) a caller that arrives while a resolution for its
fingerprint is in flight joins exactly that resolution — the pending map
and the id supply are untouched, so no new work starts; (iii) two
distinct callers that arrive during the same flight both receive the one
outcome that flight settles with; (iv) after a completion event for a
fingerprint the pending entry for it is gone, whatever the outcome was —
credentials, no credentials, or failure. -/
theorem single_flight_deduplication :
    (∀ events fp, countKey (singleFlightRun events).pending fp ≤ 1) ∧
    (∀ (s : SingleFlightState) caller fp r, assocGet s.pending fp = some r →
      (singleFlightStep s (SingleFlightEvent.arrive caller fp)).pending = s.pending ∧
      (singleFlightStep s (SingleFlightEvent.arrive caller fp)).nextResolutionId =
        s.nextResolutionId ∧
      assocGet (singleFlightStep s (SingleFlightEvent.arrive caller fp)).joined caller =
        some r) ∧
    (∀ (s : SingleFlightState) c1 c2 fp out, c1 ≠ c2 → assocGet s.pending fp = none →
      receivedOutcome (singleFlightStep (singleFlightStep
          (singleFlightStep s (SingleFlightEvent.arrive c1 fp))
          (SingleFlightEvent.arrive c2 fp)) (SingleFlightEvent.complete fp out)) c1 =
        some out ∧
      receivedOutcome (singleFlightStep (singleFlightStep
          (singleFlightStep s (SingleFlightEvent.arrive c1 fp))
          (SingleFlightEvent.arrive c2 fp)) (SingleFlightEvent.complete fp out)) c2 =
        some out) ∧
    (∀ (s : SingleFlightState) fp out,
      assocGet (singleFlightStep s (SingleFlightEvent.complete fp out)).pending fp = none) := by
  refine ⟨singleFlightRun_countKey_le, ?_, ?_, ?_⟩
  · intro s caller fp r hg
    simp only [singleFlightStep]
    rw [hg]
    exact ⟨rfl, rfl, assocGet_set_self s.joined caller r⟩
  · intro s c1 c2 fp out hne hg
    have h1 : singleFlightStep s (SingleFlightEvent.arrive c1 fp) =
        { s with pending := (assocSet s.pending fp s.nextResolutionId),
                 joined := (assocSet s.joined c1 s.nextResolutionId),
                 nextResolutionId := s.nextResolutionId + 1 } := by
      simp only [singleFlightStep]
      rw [hg]
    have h2 : singleFlightStep (singleFlightStep s (SingleFlightEvent.arrive c1 fp))
        (SingleFlightEvent.arrive c2 fp) =
        { s with pending := (assocSet s.pending fp s.nextResolutionId),
                 joined := (assocSet (assocSet s.joined c1 s.nextResolutionId) c2
                   s.nextResolutionId),
                 nextResolutionId := s.nextResolutionId + 1 } := by
      rw [h1]
      simp only [singleFlightStep]
      rw [assocGet_set_self]
    have h3 : singleFlightStep (singleFlightStep (singleFlightStep s
        (SingleFlightEvent.arrive c1 fp)) (SingleFlightEvent.arrive c2 fp))
        (SingleFlightEvent.complete fp out) =
        { s with pending := (assocRemove (assocSet s.pending fp s.nextResolutionId) fp),
                 joined := (assocSet (assocSet s.joined c1 s.nextResolutionId) c2
                   s.nextResolutionId),
                 nextResolutionId := s.nextResolutionId + 1,
                 completed := (assocSet s.completed s.nextResolutionId out) } := by
      rw [h2]
      simp only [singleFlightStep]
      rw [assocGet_set_self]
    rw [h3]
    unfold receivedOutcome
    constructor
    · rw [show assocGet (assocSet (assocSet s.joined c1 s.nextResolutionId) c2
          s.nextResolutionId) c1 = some s.nextResolutionId from by
        rw [assocGet_set_ne _ c2 c1 _ (Ne.symm hne), assocGet_set_self]]
      simp [assocGet_set_self]
    · rw [assocGet_set_self]
      simp [assocGet_set_self]
  · intro s fp out
    simp only [singleFlightStep]
    rcases hg : assocGet s.pending fp with _ | r
    · exact hg
    · exact assocGet_remove_self s.pending fp

/-- Witness for C1 at concrete inputs: a caller joining the in-flight
resolution of `demoSingleFlight` awaits resolution 7, and two callers
arriving during one flight from the empty state both receive the outcome
it completes with. -/
theorem single_flight_deduplication_witness :
    assocGet (singleFlightStep demoSingleFlight (SingleFlightEvent.arrive 2 "f")).joined 2 =
      some 7 ∧
    receivedOutcome (singleFlightStep (singleFlightStep
        (singleFlightStep initSingleFlight (SingleFlightEvent.arrive 0 "g"))
        (SingleFlightEvent.arrive 1 "g"))
        (SingleFlightEvent.complete "g" ResolutionOutcome.noCredentials)) 0 =
      some ResolutionOutcome.noCredentials ∧
    assocGet (singleFlightStep demoSingleFlight
        (SingleFlightEvent.complete "f" (ResolutionOutcome.failed JsError.typeError))).pending
        "f" = none :=
  ⟨(single_flight_deduplication.2.1 demoSingleFlight 2 "f" 7 (by decide)).2.2,
   (single_flight_deduplication.2.2.1 initSingleFlight 0 1 "g"
      ResolutionOutcome.noCredentials (by decide) (by decide)).1,
   single_flight_deduplication.2.2.2 demoSingleFlight "f"
     (ResolutionOutcome.failed JsError.typeError)⟩

/-- C7: dialog serialization (lines 169-178).  For one chain of prompt
requests indexed in enqueue order with arbitrary prompt durations: a
request enqueued when no chain is pending begins immediately; each later
request begins exactly when the previously enqueued request's promise
settles; requests are shown in first-enqueued-first-shown order (every
earlier request settles no later than a later one begins); and at any
instant at most one prompt is active system-wide, regardless of
fingerprint. -/
theorem dialog_serialization (duration : Nat → Nat) :
    dialogBegin duration 0 = 0 ∧
    (∀ n, dialogBegin duration (n + 1) = dialogSettle duration n) ∧
    (∀ i j, i < j → dialogSettle duration i ≤ dialogBegin duration j) ∧
    (∀ i j t, i ≠ j →
      ¬(dialogActiveAt duration i t ∧ dialogActiveAt duration j t)) := by
  refine ⟨rfl, fun n => rfl, fun i j hij => dialogSettle_le_begin duration hij, ?_⟩
  intro i j t hne ⟨⟨hbi, hsi⟩, ⟨hbj, hsj⟩⟩
  rcases Nat.lt_or_ge i j with hij | hij
  · exact absurd hbj (Nat.not_le_of_lt
      (Nat.lt_of_lt_of_le hsi (dialogSettle_le_begin duration hij)))
  · have hji : j < i := Nat.lt_of_le_of_ne hij (fun he => hne he.symm)
    exact absurd hbi (Nat.not_le_of_lt
      (Nat.lt_of_lt_of_le hsj (dialogSettle_le_begin duration hji)))

/-- Witness for C7 at concrete inputs: with all prompts lasting one time
unit, prompts 0 and 1 are never active at the same instant. -/
theorem dialog_serialization_witness :
    ¬(dialogActiveAt (fun _ => 1) 0 0 ∧ dialogActiveAt (fun _ => 1) 1 0) :=
  (dialog_serialization (fun _ => 1)).2.2.2 0 1 0 (by decide)
